import Mathlib

/-!
Shallow embedding of the supervisor / swarm orchestration scripts of the
agent-demo repository (src/test-supervisor-swarm.py, with the generic
pieces shared by src/supervisor-swarm-simple.py and
src/async-supervisor-swarm.py), together with theorems settling the
frozen claims about them.

Conventions of the embedding:
* A `TypedDict` with `total=False` becomes a structure whose fields are
  all `Option`-valued; an absent key is `none`.  `dict.get(k, d)` is
  `(field).getD d`, and `state.update(partial)` keeps the old value of a
  field exactly when the partial record has `none` there.
* The external chat model is a parameter `m : String → String` mapping
  the content of the single user message each call site sends to the
  content of the reply (every call site in the source sends exactly one
  message, `[{"role": "user", "content": p}]`, and reads
  `response.content`).
* Python's `str.strip` / `str.lower` are `pyStrip` / `pyLower` below
  (ASCII lowering; all replies the claims touch are ASCII).
* Python's substring test `pat in s` is `hasSub s pat`.
* Fallible code (a worker that may raise) is a function into
  `Except String String`; the exception message is the `error` payload.
-/

/-- Merge for one field of a state update: the value coming from the
node's returned partial record wins when present (`dict.update`). -/
def mergeField {α : Type} (newVal oldVal : Option α) : Option α :=
  match newVal with
  | some v => some v
  | none => oldVal

/-- First-match association lookup, the embedding of a Python `dict`
indexed by strings (keys are unique at every use site in the source). -/
def lookupStr {α : Type} : List (String × α) → String → Option α
  | [], _ => none
  | (k, v) :: rest, key => if k = key then some v else lookupStr rest key

/-- `prefixAt pat l` is true when `pat` occurs at the head of `l`. -/
def prefixAt : List Char → List Char → Bool
  | [], _ => true
  | _ :: _, [] => false
  | p :: ps, c :: cs => p = c && prefixAt ps cs

/-- `subIn pat l` is true when `pat` occurs contiguously somewhere in
`l`. -/
def subIn (pat : List Char) : List Char → Bool
  | [] => prefixAt pat []
  | c :: cs => prefixAt pat (c :: cs) || subIn pat cs

/-- Python's substring containment test `pat in s`. -/
def hasSub (s pat : String) : Bool :=
  subIn pat.toList s.toList

/-- Python `str.strip()`: drop whitespace from both ends. -/
def pyStrip (s : String) : String :=
  ⟨((s.toList.dropWhile Char.isWhitespace).reverse.dropWhile
      Char.isWhitespace).reverse⟩

/-- Python `str.lower()` (ASCII letters; every reply the pipeline
normalises in the claims is ASCII). -/
def pyLower (s : String) : String :=
  ⟨s.toList.map Char.toLower⟩

/-- `SupervisorState` of src/test-supervisor-swarm.py (a `total=False`
`TypedDict`; `messages: List[Any]` is never read or written by any node
and is carried as an opaque list of strings). -/
structure SupervisorState where
  user_input : Option String := none
  task_type : Option String := none
  assigned_worker : Option String := none
  worker_result : Option String := none
  messages : Option (List String) := none
  step : Option Nat := none
  done : Option Bool := none
deriving Repr, DecidableEq

/-- `state.update(new_state)` for `SupervisorState`. -/
def updateSup (s u : SupervisorState) : SupervisorState where
  user_input := mergeField u.user_input s.user_input
  task_type := mergeField u.task_type s.task_type
  assigned_worker := mergeField u.assigned_worker s.assigned_worker
  worker_result := mergeField u.worker_result s.worker_result
  messages := mergeField u.messages s.messages
  step := mergeField u.step s.step
  done := mergeField u.done s.done

/-- `SwarmState` of src/test-supervisor-swarm.py; `parallel_results`
is a string-keyed dict, embedded as an association list in insertion
order. -/
structure SwarmState where
  user_input : Option String := none
  parallel_results : Option (List (String × String)) := none
  consensus_result : Option String := none
  messages : Option (List String) := none
  step : Option Nat := none
  done : Option Bool := none
deriving Repr, DecidableEq

/-- `state.update(new_state)` for `SwarmState`. -/
def updateSwarm (s u : SwarmState) : SwarmState where
  user_input := mergeField u.user_input s.user_input
  parallel_results := mergeField u.parallel_results s.parallel_results
  consensus_result := mergeField u.consensus_result s.consensus_result
  messages := mergeField u.messages s.messages
  step := mergeField u.step s.step
  done := mergeField u.done s.done

/-- `MockSearch.invoke` of src/test-supervisor-swarm.py. -/
def mockSearch (query : String) : String :=
  "搜索结果: " ++ query

/-- `MockModel.invoke` of src/test-supervisor-swarm.py, as a function of
the first (and only) message's content: keyword matching on the prompt
text, with `"analysis"` as the fallback reply. -/
def mockModelReply (user_content : String) : String :=
  if hasSub user_content "研究" || hasSub user_content "搜索" then
    "research"
  else if hasSub user_content "分析" || hasSub user_content "比较" then
    "analysis"
  else if hasSub user_content "创作" || hasSub user_content "写" then
    "creative"
  else if hasSub user_content "技术" || hasSub user_content "编程" then
    "technical"
  else
    "analysis"

/-- The fixed classification instruction built by `supervisor_classify`
(and, verbatim identically, by `classify_task` in
src/supervisor-swarm-simple.py): an f-string whose only interpolation is
the user input; reproduced byte for byte, indentation included. -/
def classificationPrompt (user_input : String) : String :=
  "\n    分析用户请求，确定最适合的处理方式：\n    用户请求: " ++ user_input ++
  "\n    \n    可选类型：\n    - research: 需要搜索信息、查找资料\n    - analysis: 需要分析、比较、评估\n    - creative: 需要创作内容、写作\n    - technical: 需要技术实现、编程\n    \n    只返回一个关键词：research, analysis, creative, 或 technical\n    "

/-- `research_worker` of src/test-supervisor-swarm.py: calls the mock
search tool, then formats the research template. -/
def research_worker (input_text : String) : String :=
  let search_results := mockSearch input_text
  "\n🔍 研究结果报告\n================\n用户问题: " ++ input_text ++
  "\n搜索结果: " ++ search_results ++
  "\n\n📊 关键发现:\n- 这是关于 " ++ input_text ++
  " 的详细研究\n- 基于最新信息进行分析\n- 提供了全面的背景资料\n\n💡 建议:\n- 建议进一步深入研究\n- 关注最新发展趋势\n- 保持信息更新\n"

/-- `analysis_worker` of src/test-supervisor-swarm.py. -/
def analysis_worker (input_text : String) : String :=
  "\n📈 分析报告\n============\n用户问题: " ++ input_text ++
  "\n\n🔍 详细分析:\n- 对 " ++ input_text ++
  " 进行了深入分析\n- 识别了关键因素和影响因素\n- 评估了各种可能性和风险\n\n⚖️ 优缺点比较:\n- 优势: 具有明显的优势\n- 劣势: 存在一些挑战\n- 平衡: 总体评估良好\n\n🎯 建议和结论:\n- 建议采取积极措施\n- 重点关注关键领域\n- 持续监控和调整\n"

/-- `creative_worker` of src/test-supervisor-swarm.py. -/
def creative_worker (input_text : String) : String :=
  "\n🎨 创意方案\n============\n用户问题: " ++ input_text ++
  "\n\n💡 创意构思:\n- 为 " ++ input_text ++
  " 设计了创新方案\n- 融合了多种创意元素\n- 注重实用性和美观性\n\n📝 详细内容:\n- 提供了完整的创意描述\n- 包含了实施细节\n- 考虑了各种可能性\n\n🚀 实施建议:\n- 分阶段实施\n- 注重用户体验\n- 持续优化改进\n"

/-- `technical_worker` of src/test-supervisor-swarm.py. -/
def technical_worker (input_text : String) : String :=
  "\n⚙️ 技术解决方案\n================\n用户问题: " ++ input_text ++
  "\n\n🔧 技术方案:\n- 为 " ++ input_text ++
  " 设计了技术架构\n- 选择了合适的技术栈\n- 考虑了性能和可扩展性\n\n📋 实现步骤:\n1. 需求分析和设计\n2. 技术选型和架构\n3. 开发和测试\n4. 部署和维护\n\n💻 技术建议:\n- 使用现代技术栈\n- 注重代码质量\n- 持续集成和部署\n"

/-- The `workers` dict literal shared by `supervisor_assign` and
`swarm_parallel` in src/test-supervisor-swarm.py, in insertion order. -/
def workersTable : List (String × (String → String)) :=
  [("research", research_worker),
   ("analysis", analysis_worker),
   ("creative", creative_worker),
   ("technical", technical_worker)]

/-- The fixed four-label list of `supervisor_route` (and of
`route_after_classify` in src/supervisor-swarm-simple.py). -/
def labels4 : List String :=
  ["research", "analysis", "creative", "technical"]

/-- `supervisor_classify` of src/test-supervisor-swarm.py (identical to
`classify_task` in src/supervisor-swarm-simple.py), parameterised by the
external model `m`: build the classification prompt, send it, and take
the reply stripped and lower-cased as the label, writing it to both
`task_type` and `assigned_worker` and bumping `step`. -/
def supervisor_classify (m : String → String) (s : SupervisorState) :
    SupervisorState :=
  let user_input := s.user_input.getD ""
  let response := m (classificationPrompt user_input)
  let task_type := pyLower (pyStrip response)
  { task_type := some task_type,
    assigned_worker := some task_type,
    step := some (s.step.getD 0 + 1) }

/-- `supervisor_assign` of src/test-supervisor-swarm.py (identical in
structure to `assign_worker` in src/supervisor-swarm-simple.py): look
the label up in the worker dict (defaulting the missing field to
`"analysis"`), run the registered worker, or fall back to the apology
placeholder; either way set `done := true`. -/
def supervisor_assign (s : SupervisorState) : SupervisorState :=
  let task_type := s.assigned_worker.getD "analysis"
  let user_input := s.user_input.getD ""
  match lookupStr workersTable task_type with
  | some worker_func =>
      { worker_result := some (worker_func user_input), done := some true }
  | none =>
      { worker_result := some "抱歉，我无法处理这种类型的任务。",
        done := some true }

/-- Instrumentation for the dispatch: the list of worker labels
`supervisor_assign` invokes on a given state (the dispatch body calls
`worker_func` exactly once when the lookup succeeds, and no worker
otherwise). -/
def assignInvokedWorkers (s : SupervisorState) : List String :=
  let task_type := s.assigned_worker.getD "analysis"
  match lookupStr workersTable task_type with
  | some _ => [task_type]
  | none => []

/-- `supervisor_route` of src/test-supervisor-swarm.py (identical to
`route_after_classify` of src/supervisor-swarm-simple.py and
`supervisor_route` of src/async-supervisor-swarm.py). -/
def supervisor_route (s : SupervisorState) : String :=
  let task_type := s.task_type.getD ""
  if task_type ∈ labels4 then "assign" else "finish"

/-- An entry of the `edges` dict handed to `SimpleGraph`: either a plain
next-node string (`"assign": "END"`) or a nested dict
(`"classify": {"route": "assign"}`). -/
inductive EdgeVal where
  | direct (target : String)
  | table (entries : List (String × String))
deriving Repr, DecidableEq

/-- The data of `SimpleGraph.__init__` in src/test-supervisor-swarm.py. -/
structure SimpleGraphDef (σ : Type) where
  nodes : List (String × (σ → σ))
  edges : List (String × EdgeVal)
  startNode : String
  endNode : String

/-- The loop body of `SimpleGraph.invoke` in
src/test-supervisor-swarm.py, with explicit fuel for the `while` loop.
`upd` is `state.update`, `route` is the global `supervisor_route` that
the loop consults when (and only when) the current node is named
`"classify"` and the edge table yields the literal `"route"`.  `none`
models a run that does not return normally: either the fuel bound was
hit or the source would have raised (calling `.get` on a plain string
edge, or using a dict as a node key). -/
def simpleGraphInvoke {σ : Type} (upd : σ → σ → σ) (route : σ → String)
    (g : SimpleGraphDef σ) : Nat → String → σ → Option σ
  | 0, _, _ => none
  | fuel + 1, current_node, state =>
    if current_node = g.endNode then some state
    else
      match lookupStr g.nodes current_node with
      | none => some state
      | some nodeFn =>
        let state' := upd state (nodeFn state)
        let nextOpt : Option String :=
          if current_node = "classify" then
            match lookupStr g.edges current_node with
            | none => some "assign"
            | some (.table t) =>
                let n := (lookupStr t "route").getD "assign"
                some (if n = "route" then route state' else n)
            | some (.direct _) => none
          else
            match lookupStr g.edges current_node with
            | none => some "END"
            | some (.direct n) => some n
            | some (.table _) => none
        match nextOpt with
        | none => none
        | some next_node =>
          if next_node = "END" then some state'
          else simpleGraphInvoke upd route g fuel next_node state'

/-- `build_supervisor_graph` of src/test-supervisor-swarm.py,
parameterised by the model used by the classify node. -/
def supervisorGraph (m : String → String) : SimpleGraphDef SupervisorState :=
  { nodes := [("classify", supervisor_classify m), ("assign", supervisor_assign)],
    edges := [("classify", .table [("route", "assign")]),
              ("assign", .direct "END")],
    startNode := "classify",
    endNode := "END" }

/-- `build_supervisor_graph().invoke(s)` of src/test-supervisor-swarm.py
(fuel 8 is far beyond the two node executions the run performs; fuel
independence is proved below). -/
def supInvoke (m : String → String) (s : SupervisorState) :
    Option SupervisorState :=
  simpleGraphInvoke updateSup supervisor_route (supervisorGraph m) 8
    "classify" s

/-- A worker that may raise, for the error-handling claims: the
exception message is the `error` payload. -/
def FallibleWorker : Type := String → Except String String

/-- The per-worker try/except loop of `swarm_parallel` in
src/test-supervisor-swarm.py (and of `parallel_processing` in
src/supervisor-swarm-simple.py), over an arbitrary worker table: a
raising worker is degraded to the placeholder naming the failure, other
entries are unaffected. -/
def runWorkersCaught (ws : List (String × FallibleWorker))
    (user_input : String) : List (String × String) :=
  ws.map fun p =>
    (p.1, match p.2 user_input with
          | .ok result => result
          | .error e => "处理失败: " ++ e)

/-- The four concrete (never-raising) workers of
src/test-supervisor-swarm.py as fallible workers. -/
def workersTableF : List (String × FallibleWorker) :=
  workersTable.map fun p => (p.1, fun t => .ok (p.2 t))

/-- `swarm_parallel` of src/test-supervisor-swarm.py with the worker
dict abstracted (the source uses `workersTableF`): run every worker on
the user input under a per-worker try/except and record the results
keyed by worker name, bumping `step`. -/
def swarmParallelWith (ws : List (String × FallibleWorker))
    (s : SwarmState) : SwarmState :=
  let user_input := s.user_input.getD ""
  { parallel_results := some (runWorkersCaught ws user_input),
    step := some (s.step.getD 0 + 1) }

/-- `swarm_parallel` of src/test-supervisor-swarm.py. -/
def swarm_parallel (s : SwarmState) : SwarmState :=
  swarmParallelWith workersTableF s

/-- The consensus template of `swarm_consensus` in
src/test-supervisor-swarm.py (its only interpolation is the user input;
the dict of parallel results is read but not interpolated). -/
def consensusTemplate (user_input : String) : String :=
  "\n🤝 群体智能共识\n================\n用户问题: " ++ user_input ++
  "\n\n🔍 各智能体观点总结:\n- 研究专家: 提供了详细的研究报告\n- 分析师: 进行了深入的分析和评估\n- 创意专家: 提出了创新的解决方案\n- 技术专家: 设计了技术实现方案\n\n🎯 综合建议:\n- 结合各专家的观点，我们建议采用综合方法\n- 既考虑技术可行性，又注重创新性\n- 平衡实用性和美观性\n- 持续优化和改进\n\n📈 实施路径:\n1. 研究阶段: 深入了解需求\n2. 分析阶段: 评估各种方案\n3. 创意阶段: 设计创新解决方案\n4. 技术阶段: 实现技术方案\n5. 整合阶段: 综合所有要素\n"

/-- `swarm_consensus` of src/test-supervisor-swarm.py. -/
def swarm_consensus (s : SwarmState) : SwarmState :=
  let user_input := s.user_input.getD ""
  { consensus_result := some (consensusTemplate user_input),
    done := some true }

/-- `build_swarm_graph` of src/test-supervisor-swarm.py, with the
parallel node's worker table abstracted so that simulated failures can
be injected. -/
def swarmGraph (ws : List (String × FallibleWorker)) :
    SimpleGraphDef SwarmState :=
  { nodes := [("parallel", swarmParallelWith ws),
              ("consensus", swarm_consensus)],
    edges := [("parallel", .direct "consensus"),
              ("consensus", .direct "END")],
    startNode := "parallel",
    endNode := "END" }

/-- `build_swarm_graph().invoke(s)`.  The route argument is only read by
the executor at a node named `"classify"`, which the swarm graph does
not contain; the constant below is therefore never consulted. -/
def swarmInvoke (ws : List (String × FallibleWorker)) (s : SwarmState) :
    Option SwarmState :=
  simpleGraphInvoke updateSwarm (fun _ => "finish") (swarmGraph ws) 8
    "parallel" s

/-- The dispatch body of `supervisor_assign` /
`assign_worker` over fallible workers.  The source executes
`result = worker_func(user_input)` with no try/except around it, so a
raising worker propagates out of the dispatch node: the run of the node
is an `Except`, and the worker's exception is re-raised as `error`. -/
def assignWithF (ws : List (String × FallibleWorker))
    (s : SupervisorState) : Except String SupervisorState :=
  let task_type := s.assigned_worker.getD "analysis"
  let user_input := s.user_input.getD ""
  match lookupStr ws task_type with
  | some worker_func =>
      (worker_func user_input).map fun result =>
        { worker_result := some result, done := some true }
  | none =>
      .ok { worker_result := some "抱歉，我无法处理这种类型的任务。",
            done := some true }

/-- `assign_worker` of src/supervisor-swarm-simple.py with its worker
dict abstracted (that file's workers forward prompts to the external
model, so the table is a parameter); the body is otherwise identical to
`supervisor_assign` above. -/
def assignWorkerWith (ws : List (String × (String → String)))
    (s : SupervisorState) : SupervisorState :=
  let task_type := s.assigned_worker.getD "analysis"
  let user_input := s.user_input.getD ""
  match lookupStr ws task_type with
  | some worker_func =>
      { worker_result := some (worker_func user_input), done := some true }
  | none =>
      { worker_result := some "抱歉，我无法处理这种类型的任务。",
        done := some true }

/-- The compiled supervisor graph of src/supervisor-swarm-simple.py:
`START → classify`, then
`add_conditional_edges("classify", route_after_classify,
{"assign": "assign", "finish": END})`, then `assign → END`.
`route_after_classify` is character-for-character `supervisor_route`.
Each node returns a partial state merged into the running state. -/
def lgSupervisorInvoke (ws : List (String × (String → String)))
    (m : String → String) (s : SupervisorState) : SupervisorState :=
  let s1 := updateSup s (supervisor_classify m s)
  if supervisor_route s1 = "assign" then updateSup s1 (assignWorkerWith ws s1)
  else s1

/-- Nat-keyed association lookup (for the completion store of the
asynchronous fan-out model). -/
def lookupNat {α : Type} : List (Nat × α) → Nat → Option α
  | [], _ => none
  | (k, v) :: rest, key => if k = key then some v else lookupNat rest key

/-- Model of the fan-out of `async_swarm_parallel` in
src/async-supervisor-swarm.py: one task per worker, created in table
order.  The four branches share no mutable state, so the value a task
eventually produces is its worker applied to the input regardless of
when the scheduler completes it; a simulated completion order `ord`
lists the task indices in the order they finish, and each completion
deposits `(index, value)` into the store. -/
def completionStore (ws : List (String × (String → String)))
    (user_input : String) (ord : List Nat) : List (Nat × String) :=
  ord.map fun i => (i, ((ws.get? i).map fun p => p.2 user_input).getD "")

/-- `await asyncio.gather(*tasks)`: once every task has completed, the
results are read back in task-creation order (index 0, 1, ...), not in
arrival order; `none` if some task never completed. -/
def asyncGatherResults (ws : List (String × (String → String)))
    (user_input : String) (ord : List Nat) : Option (List String) :=
  (List.range ws.length).mapM fun i =>
    lookupNat (completionStore ws user_input ord) i

/-- The `parallel_results` dict built by `async_swarm_parallel`: worker
names zipped with the gathered results (both in task-creation order). -/
def asyncParallelResults (ws : List (String × (String → String)))
    (user_input : String) (ord : List Nat) :
    Option (List (String × String)) :=
  (asyncGatherResults ws user_input ord).map fun results =>
    List.zip (ws.map Prod.fst) results

/-- The `parallel_results` dict built by the sequential fan-out
(`swarm_parallel`) when no worker raises: each worker applied to the
input, keyed by worker name, in table order. -/
def seqParallelResults (ws : List (String × (String → String)))
    (user_input : String) : List (String × String) :=
  ws.map fun p => (p.1, p.2 user_input)

/-- Failure injection for the swarm claims: the table of the four
concrete workers with the worker registered at `label` replaced by one
that raises `msg`. -/
def failWorkerAt (label msg : String) : List (String × FallibleWorker) :=
  workersTableF.map fun p =>
    if p.1 = label then (p.1, fun _ => .error msg) else p

/-! ## Helper lemmas -/

theorem subIn_append_right (pat a b : List Char) (h : subIn pat b = true) :
    subIn pat (a ++ b) = true := by
  induction a with
  | nil => simpa using h
  | cons c cs ih =>
    simp only [List.cons_append, subIn, Bool.or_eq_true]
    exact Or.inr ih

theorem hasSub_append_right (s t pat : String)
    (h : hasSub t pat = true) : hasSub (s ++ t) pat = true := by
  unfold hasSub at *
  have hlist : (s ++ t).toList = s.toList ++ t.toList := by
    simp [String.toList]
  rw [hlist]
  exact subIn_append_right _ _ _ h

/-- The fixed tail of the classification instruction mentions the
keyword `搜索` (in the description of the `research` label), whatever
the user typed. -/
theorem searchKeyword_in_prompt (x : String) :
    hasSub (classificationPrompt x) "搜索" = true := by
  unfold classificationPrompt
  exact hasSub_append_right _ _ _ (by decide)

/-- `MockModel.invoke` answers `"research"` to every classification
prompt: the keyword test for the first branch fires on the prompt's own
text. -/
theorem mockModelReply_classification (x : String) :
    mockModelReply (classificationPrompt x) = "research" := by
  unfold mockModelReply
  rw [searchKeyword_in_prompt x]
  simp

/-- One-step evaluation of the test file's supervisor pipeline: the run
visits `classify` and then (unconditionally, see the edge table) the
`assign` node, merging each node's partial return into the state. -/
theorem supInvoke_run (m : String → String) (s : SupervisorState) :
    supInvoke m s =
      some (updateSup (updateSup s (supervisor_classify m s))
        (supervisor_assign (updateSup s (supervisor_classify m s)))) := rfl

theorem lookupNat_map_self {α : Type} (v : Nat → α) (ord : List Nat)
    (i : Nat) (h : i ∈ ord) :
    lookupNat (ord.map fun j => (j, v j)) i = some (v i) := by
  induction ord with
  | nil => cases h
  | cons j rest ih =>
    simp only [List.map_cons, lookupNat]
    by_cases hj : j = i
    · subst hj
      simp
    · rw [if_neg hj]
      rcases List.mem_cons.mp h with h1 | h2
      · exact absurd h1.symm hj
      · exact ih h2

theorem mapM_eq_some_map {α β : Type} (f : α → Option β) (g : α → β)
    (l : List α) (h : ∀ a ∈ l, f a = some (g a)) :
    l.mapM f = some (l.map g) := by
  induction l with
  | nil => rfl
  | cons a rest ih =>
    rw [List.mapM_cons, h a (List.mem_cons_self a rest),
      ih fun b hb => h b (List.mem_cons_of_mem a hb)]
    rfl

theorem range_map_getD {α : Type} (d : α) (xs : List α) :
    (List.range xs.length).map (fun i => (xs.get? i).getD d) = xs := by
  induction xs with
  | nil => rfl
  | cons x rest ih =>
    rw [List.length_cons, List.range_succ_eq_map]
    simp only [List.map_cons, List.get?_cons_zero, Option.getD_some,
      List.map_map]
    have hcomp : ((fun i => ((x :: rest).get? i).getD d) ∘ Nat.succ) =
        fun i => (rest.get? i).getD d := by
      funext i
      simp
    rw [hcomp, ih]

/-- Whatever order the four tasks complete in, `gather` reads the store
back by task index, so the zipped result dict is the one the sequential
fan-out builds. -/
theorem asyncOrderIndep (ws : List (String × (String → String)))
    (input : String) (ord : List Nat)
    (hperm : ord.Perm (List.range ws.length)) :
    asyncParallelResults ws input ord = some (seqParallelResults ws input) := by
  have hmem : ∀ i, i < ws.length → i ∈ ord := fun i hi =>
    hperm.mem_iff.mpr (List.mem_range.mpr hi)
  unfold asyncParallelResults asyncGatherResults completionStore
  rw [mapM_eq_some_map _
    (fun i => ((ws.get? i).map fun p => p.2 input).getD "") _
    (fun i hi => lookupNat_map_self _ ord i (hmem i (List.mem_range.mp hi)))]
  have h1 : ∀ i, ((ws.get? i).map fun p => p.2 input) =
      (ws.map fun p => p.2 input).get? i := by
    intro i
    rw [List.get?_map]
  have h2 : ws.length = (ws.map fun p => p.2 input).length := by simp
  have hvals : (List.range ws.length).map
      (fun i => ((ws.get? i).map fun p => p.2 input).getD "") =
      ws.map fun p => p.2 input := by
    conv_rhs => rw [← range_map_getD "" (ws.map fun p => p.2 input)]
    rw [h2]
    exact List.map_congr_left fun i _ => by rw [h1 i]
  rw [hvals]
  show some ((List.map Prod.fst ws).zip (List.map (fun p => p.2 input) ws)) =
    some (seqParallelResults ws input)
  rw [List.zip_map' Prod.fst (fun p : String × (String → String) => p.2 input) ws]
  rfl

/-- Every entry the caught fan-out loop records is either the worker's
own result or the failure placeholder built from the exception that
worker raised. -/
theorem runWorkersCaught_mem (ws : List (String × FallibleWorker))
    (input : String) (n r : String)
    (hmem : (n, r) ∈ runWorkersCaught ws input) :
    ∃ f, (n, f) ∈ ws ∧
      (f input = .ok r ∨ ∃ e, f input = .error e ∧ r = "处理失败: " ++ e) := by
  rcases List.mem_map.mp hmem with ⟨p, hp, heq⟩
  rw [Prod.ext_iff] at heq
  obtain ⟨hn, hr⟩ := heq
  simp only at hn hr
  refine ⟨p.2, ?_, ?_⟩
  · have hpair : (n, p.2) = p := by
      rw [← hn]
    rw [hpair]
    exact hp
  · cases he : p.2 input with
    | ok v =>
      left
      rw [he] at hr
      simp only at hr
      rw [hr]
    | error err =>
      right
      rw [he] at hr
      simp only at hr
      exact ⟨err, rfl, hr.symm⟩

/-! ## Claims -/

/-- C1: the claim says that for an unrecognized classifier label the
supervisor pipeline finishes without dispatching: `worker_result` stays
unset and `done` is not forced to true.  The test file's executor
violates this: `edges["classify"]` is the dict `{"route": "assign"}`,
so the lookup yields the literal `"assign"`, the `== "route"` guard
never fires, `supervisor_route` is never consulted, and the run with
classifier reply `"unknown"` still executes the `assign` node, which
sets `worker_result` to the apology placeholder and `done := true`.
The router itself would say `"finish"` on that very state, and the
properly wired conditional-edge pipeline of
src/supervisor-swarm-simple.py ends with `worker_result` unset and
`done` still false — the claim describes the evident intent, the
executor's dead `"route"` check is the slip. -/
theorem C1_unrecognized_label_dispatch_bug :
    (supInvoke (fun _ => "unknown")
       { user_input := some "x", step := some 0, done := some false } =
     some { user_input := some "x", task_type := some "unknown",
            assigned_worker := some "unknown",
            worker_result := some "抱歉，我无法处理这种类型的任务。",
            step := some 1, done := some true })
    ∧ supervisor_route
        { user_input := some "x", task_type := some "unknown",
          assigned_worker := some "unknown", step := some 1,
          done := some false } = "finish"
    ∧ ∀ ws : List (String × (String → String)),
        lgSupervisorInvoke ws (fun _ => "unknown")
          { user_input := some "x", step := some 0, done := some false } =
        { user_input := some "x", task_type := some "unknown",
          assigned_worker := some "unknown", step := some 1,
          done := some false } :=
  ⟨rfl, rfl, fun _ => rfl⟩

/-- C2: the router is a pure function of `task_type`: it answers
`"assign"` exactly when the label is one of the four fixed ones and can
only answer `"assign"` or `"finish"`; and the pipeline run is terminal
after its bounded pass — any fuel of at least two steps yields the very
same final state, so there is no retry and no loop. -/
theorem C2_router_membership_iff_and_terminal (s : SupervisorState) :
    (supervisor_route s = "assign" ↔ (s.task_type.getD "") ∈ labels4)
    ∧ (supervisor_route s = "assign" ∨ supervisor_route s = "finish")
    ∧ ∀ (m : String → String) (j : Nat),
        simpleGraphInvoke updateSup supervisor_route (supervisorGraph m)
          (j + 2) "classify" s = supInvoke m s := by
  refine ⟨?_, ?_, fun m j => rfl⟩
  · unfold supervisor_route
    by_cases h : (s.task_type.getD "") ∈ labels4
    · rw [if_pos h]
      exact ⟨fun _ => h, fun _ => rfl⟩
    · rw [if_neg h]
      exact ⟨fun hr => absurd hr (by decide), fun hm => absurd hm h⟩
  · unfold supervisor_route
    by_cases h : (s.task_type.getD "") ∈ labels4
    · rw [if_pos h]
      exact Or.inl rfl
    · rw [if_neg h]
      exact Or.inr rfl

/-- C3: dispatching a state whose classifier output is one of the four
defined labels invokes exactly the worker registered for that label
(and no other), and the documented scenario — input
`分析一下A和B的优缺点` with the classifier replying `"analysis"` — ends
with `worker_result` equal to the analysis worker's templated output
and `done = true`. -/
theorem C3_dispatch_invokes_registered_worker (L : String)
    (hL : L ∈ labels4) (w : String → String)
    (hw : lookupStr workersTable L = some w)
    (s : SupervisorState) (hs : s.assigned_worker = some L) :
    (supervisor_assign s =
       { worker_result := some (w (s.user_input.getD "")),
         done := some true }
     ∧ assignInvokedWorkers s = [L])
    ∧ supInvoke (fun _ => "analysis")
        { user_input := some "分析一下A和B的优缺点", step := some 0,
          done := some false } =
      some { user_input := some "分析一下A和B的优缺点",
             task_type := some "analysis",
             assigned_worker := some "analysis",
             worker_result := some (analysis_worker "分析一下A和B的优缺点"),
             step := some 1, done := some true } := by
  refine ⟨?_, rfl⟩
  unfold supervisor_assign assignInvokedWorkers
  rw [hs]
  simp only [Option.getD_some]
  rw [hw]
  exact ⟨rfl, rfl⟩

theorem C3_witness :
    ("analysis" ∈ labels4)
    ∧ lookupStr workersTable "analysis" = some analysis_worker
    ∧ (supervisor_assign
         { user_input := some "分析一下A和B的优缺点",
           assigned_worker := some "analysis" } =
       { worker_result := some (analysis_worker "分析一下A和B的优缺点"),
         done := some true }
     ∧ assignInvokedWorkers
         { user_input := some "分析一下A和B的优缺点",
           assigned_worker := some "analysis" } = ["analysis"]) :=
  ⟨by decide, rfl,
    (C3_dispatch_invokes_registered_worker "analysis" (by decide)
      analysis_worker rfl
      { user_input := some "分析一下A和B的优缺点",
        assigned_worker := some "analysis" } rfl).1⟩

/-- C4 counterexample: the claim extends the per-worker catch to "every
worker invocation in the pipeline (including the supervisor's dispatch
of a single worker)", but the dispatch body runs
`result = worker_func(user_input)` with no try/except.  At the concrete
state whose assigned worker raises `"boom"`, the dispatch node
propagates the exception to its caller instead of degrading it to a
placeholder. -/
theorem C4_counterexample_dispatch_propagates :
    assignWithF (failWorkerAt "analysis" "boom")
      { user_input := some "q", assigned_worker := some "analysis" } =
    Except.error "boom" := rfl

/-- C4 amended: a worker-invocation failure is caught per worker and
degraded to the `处理失败:` placeholder in the swarm fan-out only —
every entry that loop records is the worker's result or the placeholder
naming that worker's own exception, and nothing propagates; the
supervisor's dispatch of a single worker has no such catch, and a
raising worker propagates its exception out of the dispatch node. -/
theorem C4_amended_catch_only_in_swarm_fanout :
    (∀ (ws : List (String × FallibleWorker)) (input n r : String),
       (n, r) ∈ runWorkersCaught ws input →
       ∃ f, (n, f) ∈ ws ∧
         (f input = .ok r ∨ ∃ e, f input = .error e ∧ r = "处理失败: " ++ e))
    ∧ (∀ (ws : List (String × FallibleWorker)) (s : SwarmState),
        (swarmParallelWith ws s).parallel_results =
          some (runWorkersCaught ws (s.user_input.getD "")))
    ∧ (∀ (ws : List (String × FallibleWorker)) (s : SupervisorState)
        (f : FallibleWorker) (e : String),
        lookupStr ws (s.assigned_worker.getD "analysis") = some f →
        f (s.user_input.getD "") = .error e →
        assignWithF ws s = .error e) := by
  refine ⟨runWorkersCaught_mem, fun ws s => rfl, ?_⟩
  intro ws s f e h1 h2
  simp only [assignWithF, h1, h2]
  rfl

theorem C4_amended_witness :
    lookupStr (failWorkerAt "analysis" "bad") "analysis" =
      some (fun _ => Except.error "bad")
    ∧ assignWithF (failWorkerAt "analysis" "bad")
        { user_input := some "w", assigned_worker := some "analysis" } =
      Except.error "bad" :=
  ⟨rfl, (C4_amended_catch_only_in_swarm_fanout.2.2
    (failWorkerAt "analysis" "bad")
    { user_input := some "w", assigned_worker := some "analysis" }
    (fun _ => Except.error "bad") "bad" rfl rfl)⟩

/-- C5: injecting an exception into exactly one of the four workers of
the swarm fan-out leaves a placeholder naming the failure at that
worker's key only; every other defined label still maps to its worker's
normal result, and the join still runs — the final state carries the
consensus output and `done = true`. -/
theorem C5_single_worker_failure_isolated (L : String) (hL : L ∈ labels4)
    (msg : String) (s : SwarmState) :
    swarmInvoke (failWorkerAt L msg) s = some
      { user_input := s.user_input,
        parallel_results := some (runWorkersCaught (failWorkerAt L msg)
          (s.user_input.getD "")),
        consensus_result := some (consensusTemplate (s.user_input.getD "")),
        messages := s.messages,
        step := some (s.step.getD 0 + 1),
        done := some true }
    ∧ lookupStr (runWorkersCaught (failWorkerAt L msg) (s.user_input.getD ""))
        L = some ("处理失败: " ++ msg)
    ∧ ∀ L2 ∈ labels4, L2 ≠ L →
        ∃ w, lookupStr workersTable L2 = some w ∧
          lookupStr (runWorkersCaught (failWorkerAt L msg)
            (s.user_input.getD "")) L2 = some (w (s.user_input.getD "")) := by
  simp only [labels4, List.mem_cons, List.not_mem_nil, or_false] at hL
  have hcases : ∀ L2, L2 ∈ labels4 →
      L2 = "research" ∨ L2 = "analysis" ∨ L2 = "creative" ∨
        L2 = "technical" := by
    intro L2 h2
    simpa [labels4, List.mem_cons, List.not_mem_nil, or_false] using h2
  rcases hL with rfl | rfl | rfl | rfl
  all_goals refine ⟨rfl, rfl, ?_⟩
  all_goals intro L2 hL2 hne
  all_goals rcases hcases L2 hL2 with rfl | rfl | rfl | rfl
  · exact absurd rfl hne
  · exact ⟨analysis_worker, rfl, rfl⟩
  · exact ⟨creative_worker, rfl, rfl⟩
  · exact ⟨technical_worker, rfl, rfl⟩
  · exact ⟨research_worker, rfl, rfl⟩
  · exact absurd rfl hne
  · exact ⟨creative_worker, rfl, rfl⟩
  · exact ⟨technical_worker, rfl, rfl⟩
  · exact ⟨research_worker, rfl, rfl⟩
  · exact ⟨analysis_worker, rfl, rfl⟩
  · exact absurd rfl hne
  · exact ⟨technical_worker, rfl, rfl⟩
  · exact ⟨research_worker, rfl, rfl⟩
  · exact ⟨analysis_worker, rfl, rfl⟩
  · exact ⟨creative_worker, rfl, rfl⟩
  · exact absurd rfl hne

theorem C5_witness :
    ("analysis" ∈ labels4)
    ∧ (swarmInvoke (failWorkerAt "analysis" "boom")
        { user_input := some "q", step := some 0, done := some false } = some
        { user_input := some "q",
          parallel_results :=
            some (runWorkersCaught (failWorkerAt "analysis" "boom") "q"),
          consensus_result := some (consensusTemplate "q"),
          messages := none, step := some 1, done := some true }
      ∧ lookupStr (runWorkersCaught (failWorkerAt "analysis" "boom") "q")
          "analysis" = some ("处理失败: " ++ "boom")
      ∧ ∀ L2 ∈ labels4, L2 ≠ "analysis" →
          ∃ w, lookupStr workersTable L2 = some w ∧
            lookupStr (runWorkersCaught (failWorkerAt "analysis" "boom") "q")
              L2 = some (w "q")) :=
  ⟨by decide, C5_single_worker_failure_isolated "analysis" (by decide) "boom"
    { user_input := some "q", step := some 0, done := some false }⟩

/-- C6: the fan-out/join is completion-order independent — for every
worker table, input and permutation of the simulated completion order,
the concurrent variant's `parallel_results` equals the mapping the
sequential variant builds, keyed by worker label. -/
theorem C6_fanout_join_order_independent
    (ws : List (String × (String → String))) (input : String)
    (ord : List Nat) (hperm : ord.Perm (List.range ws.length)) :
    asyncParallelResults ws input ord = some (seqParallelResults ws input)
    ∧ ∀ s : SwarmState, (swarm_parallel s).parallel_results =
        some (seqParallelResults workersTable (s.user_input.getD "")) :=
  ⟨asyncOrderIndep ws input ord hperm, fun _ => rfl⟩

theorem C6_witness :
    ([2, 0, 3, 1] : List Nat).Perm (List.range workersTable.length)
    ∧ asyncParallelResults workersTable "q" [2, 0, 3, 1] =
      some (seqParallelResults workersTable "q") :=
  ⟨by decide, (C6_fanout_join_order_independent workersTable "q"
    [2, 0, 3, 1] (by decide)).1⟩

/-- C7: for every model reply, the classifier takes the reply stripped
and lower-cased as the label with no membership validation, writes that
same label into both `task_type` and `assigned_worker`, and the merged
state's `step` is the old value (defaulted to 0) plus exactly 1. -/
theorem C7_classifier_writes_label_unvalidated (m : String → String)
    (s : SupervisorState) :
    supervisor_classify m s =
      { task_type := some (pyLower (pyStrip
          (m (classificationPrompt (s.user_input.getD ""))))),
        assigned_worker := some (pyLower (pyStrip
          (m (classificationPrompt (s.user_input.getD ""))))),
        step := some (s.step.getD 0 + 1) }
    ∧ (updateSup s (supervisor_classify m s)).step =
        some (s.step.getD 0 + 1)
    ∧ (updateSup s (supervisor_classify m s)).task_type =
        (updateSup s (supervisor_classify m s)).assigned_worker :=
  ⟨rfl, rfl, rfl⟩

/-- C8: the pipeline is deterministic given its external collaborator —
two models that give the same response on the one classification call
the run makes produce identical final states, hence re-running with
identical mocked responses reproduces the output exactly. -/
theorem C8_pipeline_deterministic_given_responses (m1 m2 : String → String)
    (s : SupervisorState)
    (h : m1 (classificationPrompt (s.user_input.getD "")) =
         m2 (classificationPrompt (s.user_input.getD ""))) :
    supInvoke m1 s = supInvoke m2 s := by
  have hc : supervisor_classify m1 s = supervisor_classify m2 s := by
    simp only [supervisor_classify, h]
  rw [supInvoke_run, supInvoke_run, hc]

theorem C8_witness :
    mockModelReply (classificationPrompt "hi") =
      ((fun _ => "research") : String → String) (classificationPrompt "hi")
    ∧ supInvoke mockModelReply
        { user_input := some "hi", step := some 0, done := some false } =
      supInvoke (fun _ => "research")
        { user_input := some "hi", step := some 0, done := some false } :=
  ⟨mockModelReply_classification "hi",
    C8_pipeline_deterministic_given_responses mockModelReply
      (fun _ => "research")
      { user_input := some "hi", step := some 0, done := some false }
      (mockModelReply_classification "hi")⟩

/-- C9: under the file's own MockModel the classifier's label does not
depend on the user input at all — the fixed classification prompt
itself contains the keyword `搜索`, the mock's first branch fires, and
`supervisor_classify` returns `task_type = "research"` for every
state. -/
theorem C9_mock_classifier_always_research (s : SupervisorState) :
    supervisor_classify mockModelReply s =
      { task_type := some "research", assigned_worker := some "research",
        step := some (s.step.getD 0 + 1) } := by
  simp only [supervisor_classify, mockModelReply_classification]
  rfl

/-- C10: running the dispatch stage on a state with no
`assigned_worker` field does not finish without dispatch — the label
defaults to `"analysis"`, the analysis worker (and only it) is invoked,
and its result is returned with `done = true`. -/
theorem C10_missing_assigned_worker_defaults_to_analysis
    (s : SupervisorState) (h : s.assigned_worker = none) :
    supervisor_assign s =
      { worker_result := some (analysis_worker (s.user_input.getD "")),
        done := some true }
    ∧ assignInvokedWorkers s = ["analysis"] := by
  unfold supervisor_assign assignInvokedWorkers
  rw [h]
  exact ⟨rfl, rfl⟩

theorem C10_witness :
    (({ user_input := some "q" } : SupervisorState).assigned_worker = none)
    ∧ (supervisor_assign { user_input := some "q" } =
        { worker_result := some (analysis_worker "q"), done := some true }
      ∧ assignInvokedWorkers { user_input := some "q" } = ["analysis"]) :=
  ⟨rfl, C10_missing_assigned_worker_defaults_to_analysis
    { user_input := some "q" } rfl⟩
